import Mathlib

/-!
Shallow embedding of the connection/client-management layer of
`internal/provider/config.go` (terraform-provider-docker), together with
theorems settling the specification claims about it.

Go strings are modelled as Lean `String`; `[]byte` values are modelled as
`List Nat` (one `Nat` per byte, always `< 256` for real inputs); a possibly
`nil` Go slice or pointer is modelled as an `Option`.  External library
calls (`connhelper`, `docker/client`, `tls`, `x509`) are modelled as an
explicit environment of oracles, since their code is not part of this
repository; the observable of a constructed client is the option list it
was built with.
-/

set_option autoImplicit false

namespace DockerProvider

/-- Models Go's built-in `copy(dst, src)` for slices: the resulting contents
of `dst` after the call.  Go copies `min (len dst) (len src)` elements and
leaves the remaining tail of `dst` (and the length of `dst`) unchanged; in
particular `copy` into a `nil`/empty destination copies nothing. -/
def goCopy {α : Type} : List α → List α → List α
  | [], _ => []
  | ds, [] => ds
  | _ :: ds, s :: ss => s :: goCopy ds ss

/-- The UTF-8 encoding of a single character, byte by byte. -/
def encodeChar (c : Char) : List Nat :=
  let n := c.toNat
  if n < 0x80 then [n]
  else if n < 0x800 then [0xc0 + n / 64, 0x80 + n % 64]
  else if n < 0x10000 then [0xe0 + n / 4096, 0x80 + n / 64 % 64, 0x80 + n % 64]
  else [0xf0 + n / 262144, 0x80 + n / 4096 % 64, 0x80 + n / 64 % 64, 0x80 + n % 64]

/-- The byte sequence of a Go string (`[]byte(s)` / what `hash.Write` sees):
the UTF-8 encoding of its characters. -/
def utf8Bytes (s : String) : List Nat :=
  List.flatten (s.data.map encodeChar)

/-- Byte-wise lexicographic `≤` on byte sequences, the order under which
Go's `sort.Strings` sorts (UTF-8 byte order). -/
def byteLe : List Nat → List Nat → Bool
  | [], _ => true
  | _ :: _, [] => false
  | a :: as, b :: bs => if a < b then true else if b < a then false else byteLe as bs

/-- Insert a string into a byte-lexicographically sorted list. -/
def insertSorted (x : String) : List String → List String
  | [] => [x]
  | y :: ys => if byteLe (utf8Bytes x) (utf8Bytes y) then x :: y :: ys else y :: insertSorted x ys

/-- Models `sort.Strings`: insertion sort under ascending byte order. -/
def sortStrings : List String → List String
  | [] => []
  | x :: xs => insertSorted x (sortStrings xs)

/-- Models `strings.Join(elems, sep)`. -/
def goJoin (elems : List String) (sep : String) : String :=
  match elems with
  | [] => ""
  | x :: xs => xs.foldl (fun acc e => acc ++ sep ++ e) x

/-- Models `strings.HasPrefix(s, pre)` (byte-wise prefix test). -/
def goStartsWith (s pre : String) : Bool :=
  (utf8Bytes pre).isPrefixOf (utf8Bytes s)

/-- The 64-bit FNV-1 prime, `hash/fnv`'s `prime64`. -/
def fnvPrime : Nat := 1099511628211

/-- The 64-bit FNV-1 offset basis, `hash/fnv`'s `offset64`. -/
def fnvOffset : Nat := 14695981039346656037

/-- One step of FNV-1 64-bit: multiply by the prime modulo `2 ^ 64`,
then xor in the next byte. -/
def fnvStep (h b : Nat) : Nat := (h * fnvPrime % 2 ^ 64) ^^^ b

/-- Digest of a byte sequence under `fnv.New64` (FNV-1, 64-bit). -/
def fnv64 (bytes : List Nat) : Nat := bytes.foldl fnvStep fnvOffset

/-- The `Config` struct: connection parameters for one Docker daemon
target. -/
structure Config where
  Host : String
  SSHOpts : List String
  Ca : String
  Cert : String
  Key : String
  CertPath : String
deriving DecidableEq

/-- Models `Config.Hash`.  The Go code declares `var SSHOpts []string`
(a `nil` slice) and then runs `copy(SSHOpts, c.SSHOpts)`: since the
destination has length zero, nothing is copied, so the local `SSHOpts`
stays empty regardless of `c.SSHOpts`. -/
def Config.Hash (c : Config) : Nat :=
  let SSHOpts : List String := goCopy [] c.SSHOpts
  let SSHOpts := sortStrings SSHOpts
  fnv64 (utf8Bytes (goJoin
    [c.Host, c.Ca, c.Cert, c.Key, c.CertPath, goJoin SSHOpts "|"] "|"))

/-- Models `ProviderConfig.getConfig`.  The override payload `d` stands for
the `Config` that `NewConfig(d)` extracts from the per-resource
`schema.ResourceData` (`none` when `d == nil`; a `Config` whose fields are
all empty when no `override` block is present, which overrides nothing).

Go aliasing modelled here: `config := *c.DefaultConfig` copies the struct
shallowly, so `config.SSHOpts` and `c.DefaultConfig.SSHOpts` are slice
headers over the SAME backing array; the first
`copy(config.SSHOpts, c.DefaultConfig.SSHOpts)` copies the array onto
itself (a no-op); the second `copy(config.SSHOpts, resourceConfig.SSHOpts)`
writes the override's elements through that shared array, so BOTH the
resolved config and the provider default observe
`goCopy default.SSHOpts rc.SSHOpts`.  The function therefore returns the
pair (resolved config, provider default after the call). -/
def getConfig (default : Config) (d : Option Config) : Config × Config :=
  match d with
  | none => (default, default)
  | some rc =>
    let newOpts := if rc.SSHOpts.length ≠ 0 then goCopy default.SSHOpts rc.SSHOpts
                   else default.SSHOpts
    ({ Host := if rc.Host ≠ "" then rc.Host else default.Host
       SSHOpts := newOpts
       Ca := if rc.Ca ≠ "" then rc.Ca else default.Ca
       Cert := if rc.Cert ≠ "" then rc.Cert else default.Cert
       Key := if rc.Key ≠ "" then rc.Key else default.Key
       CertPath := if rc.CertPath ≠ "" then rc.CertPath else default.CertPath },
     { default with SSHOpts := newOpts })

/-- The `tls.Config` fields this layer writes.  `Certificates` records the
PEM pairs loaded with `tls.X509KeyPair` (the parsed certificate itself is
opaque, so the pair of inputs stands for it); `RootCAs` records the CA PEM
added to the pool, `none` for an unset pool. -/
structure TLSConfig where
  Certificates : List (List Nat × List Nat)
  InsecureSkipVerify : Bool
  RootCAs : Option (List Nat)
deriving DecidableEq

/-- The observable part of the `http.Client` built by
`buildHTTPClientFromBytes` (the transport tuning constants of
`defaultTransport` carry no claim-relevant state). -/
structure HTTPClient where
  TLSClientConfig : TLSConfig
deriving DecidableEq

/-- The `connhelper.ConnectionHelper` observables (`Dialer` is an opaque
function; only `Host` is inspected by this layer). -/
structure ConnectionHelper where
  Host : String
deriving DecidableEq

/-- The option list passed to `client.NewClientWithOpts`; a constructed
client handle is identified by the options that built it
(`client.WithAPIVersionNegotiation()` is passed on every call and carries
no state). -/
inductive ClientOpts where
  | withHTTPClient (httpClient : HTTPClient) (host : String)
  | withTLSClientConfig (host ca cert key : String)
  | withDialContext (helperHost : String)
  | withHostOnly (host : String)
deriving DecidableEq

/-- Errors surfaced by this layer.  Constant `fmt.Errorf`/`errors.New`
messages are `msg`; errors bubbled up unchanged from external libraries
are `ext` (identified by an abstract code); the ping failure is wrapped by
`fmt.Errorf("error pinging Docker server: %s", err)`, modelled as
`pingWrap`. -/
inductive GoErr where
  | msg (s : String)
  | ext (code : Nat)
  | pingWrap (code : Nat)
deriving DecidableEq

/-- Oracles for the external libraries this file calls: each returns the
error (by abstract code) or success, deterministically per input. -/
structure Env where
  /-- Oracle for `tls.X509KeyPair(cert, key)`: `none` when the pair parses. -/
  x509KeyPair : List Nat → List Nat → Option Nat
  /-- Oracle for `caPool.AppendCertsFromPEM(ca)`: whether the PEM was accepted. -/
  appendCertsFromPEM : List Nat → Bool
  /-- Oracle for `connhelper.GetConnectionHelper(host)`: (helper, error), each
  possibly nil. -/
  getConnectionHelper : String → Option ConnectionHelper × Option Nat
  /-- Oracle for `connhelper.GetConnectionHelperWithSSHOpts(host, sshopts)`. -/
  getConnectionHelperWithSSHOpts : String → List String → Option ConnectionHelper × Option Nat
  /-- Oracle for `client.NewClientWithOpts(...)`: `none` on success (the handle is
  then the option list itself), an error code otherwise. -/
  newClientWithOpts : ClientOpts → Option Nat
  /-- Oracle for `dockerClient.Ping(ctx)` on a non-nil client: `none` on success. -/
  ping : ClientOpts → Option Nat

/-- Models `buildHTTPClientFromBytes(caPEMCert, certPEMBlock, keyPEMBlock)`.
`Option` arguments model `nil`-ness of the `[]byte` slices; Go's
`len(caPEMCert) == 0` is true for both `nil` and empty slices. -/
def buildHTTPClientFromBytes (env : Env)
    (caPEMCert certPEMBlock keyPEMBlock : Option (List Nat)) :
    Except GoErr HTTPClient :=
  let certsStep : Except GoErr (List (List Nat × List Nat)) :=
    match certPEMBlock, keyPEMBlock with
    | some cert, some key =>
      match env.x509KeyPair cert key with
      | some e => .error (.ext e)
      | none => .ok [(cert, key)]
    | _, _ => .ok []
  match certsStep with
  | .error e => .error e
  | .ok certs =>
    let caBytes := caPEMCert.getD []
    if caBytes.length = 0 then
      .ok { TLSClientConfig :=
              { Certificates := certs, InsecureSkipVerify := true, RootCAs := none } }
    else if env.appendCertsFromPEM caBytes then
      .ok { TLSClientConfig :=
              { Certificates := certs, InsecureSkipVerify := false, RootCAs := some caBytes } }
    else
      .error (.msg "could not add RootCA pem")

/-- Models `filepath.Join(dir, file)` for a clean directory and a plain
file name, the only shape this layer produces. -/
def filepathJoin (dir file : String) : String := dir ++ "/" ++ file

/-- The `clientCache sync.Map`, keyed by fingerprint; a stored value is a
`*client.Client`, which the code can (and on some paths does) store as
`nil`, hence `Option ClientOpts`. -/
abbrev Cache : Type := List (Nat × Option ClientOpts)

/-- Models `sync.Map.Load`: `none` when the key is absent, otherwise the stored
(possibly nil) client. -/
def cacheLoad : Cache → Nat → Option (Option ClientOpts)
  | [], _ => none
  | (k, v) :: rest, h => if k = h then some v else cacheLoad rest h

/-- Models `sync.Map.LoadOrStore`: keep the existing entry if present, otherwise
store the given value. -/
def cacheLoadOrStore (cache : Cache) (h : Nat) (v : Option ClientOpts) : Cache :=
  if (cacheLoad cache h).isSome then cache else (h, v) :: cache

/-- The `ProviderConfig` state `MakeClient` reads and writes (the `Hosts`
and `AuthConfigs` fields are never touched by this layer). -/
structure ProviderConfig where
  DefaultConfig : Config
  clientCache : Cache
deriving DecidableEq

/-- The branch chain of `MakeClient` between the cache lookup and the
`if err != nil` check: either some `return nil, err` path fires before the
cache store (`.error`), or control reaches `clientCache.LoadOrStore` with
the possibly-nil `dockerClient` (`.ok`).

Faithfulness notes, in source order:
  * inline-TLS branch: `dockerClient, _ = client.NewClientWithOpts(...)`
    discards the construction error, leaving `dockerClient` nil on failure;
  * cert-path branch and direct branch use `dockerClient, err = ...` whose
    error reaches `if err != nil { return nil, err }` before the store;
  * ssh branch: `helper, err := connhelper.GetConnectionHelper(...)`
    shadows the outer `err`; a resolution error returns immediately; a nil
    helper with nil error leaves `dockerClient` nil and falls out of the
    chain (there is NO fall-through to the direct branch);
    `dockerClient, _ = ...` again discards the construction error. -/
def buildClient (env : Env) (config : Config) : Except GoErr (Option ClientOpts) :=
  if config.Cert ≠ "" ∨ config.Key ≠ "" then
    if config.Cert = "" ∨ config.Key = "" then
      .error (.msg "cert_material, and key_material must be specified")
    else if config.CertPath ≠ "" then
      .error (.msg "cert_path must not be specified")
    else
      match buildHTTPClientFromBytes env (some (utf8Bytes config.Ca))
          (some (utf8Bytes config.Cert)) (some (utf8Bytes config.Key)) with
      | .error e => .error e
      | .ok httpClient =>
        let opts := ClientOpts.withHTTPClient httpClient config.Host
        .ok (if (env.newClientWithOpts opts).isSome then none else some opts)
  else if config.CertPath ≠ "" then
    let opts := ClientOpts.withTLSClientConfig config.Host
      (filepathJoin config.CertPath "ca.pem")
      (filepathJoin config.CertPath "cert.pem")
      (filepathJoin config.CertPath "key.pem")
    match env.newClientWithOpts opts with
    | some e => .error (.ext e)
    | none => .ok (some opts)
  else if goStartsWith config.Host "ssh://" then
    match env.getConnectionHelper config.Host with
    | (_, some e) => .error (.ext e)
    | (some helper, none) =>
      let opts := ClientOpts.withDialContext helper.Host
      .ok (if (env.newClientWithOpts opts).isSome then none else some opts)
    | (none, none) => .ok none
  else
    let opts := ClientOpts.withHostOnly config.Host
    match env.newClientWithOpts opts with
    | some e => .error (.ext e)
    | none => .ok (some opts)

/-- The result of one `MakeClient` call: the returned `(client, error)`
pair, or the nil-pointer dereference that `dockerClient.Ping(ctx)` commits
when `dockerClient` is a nil `*client.Client`. -/
inductive Outcome where
  | ok (c : Option ClientOpts)
  | err (e : GoErr)
  | panic
deriving DecidableEq

/-- Models `ProviderConfig.MakeClient(ctx, d)`: resolve the configuration
(mutating the shared default, see `getConfig`), fingerprint it, return a
cache hit immediately, otherwise run the branch chain, store the
possibly-nil client under the fingerprint, ping it and return.  Returns
the outcome together with the `ProviderConfig` state after the call. -/
def MakeClient (env : Env) (pc : ProviderConfig) (d : Option Config) :
    Outcome × ProviderConfig :=
  let config := (getConfig pc.DefaultConfig d).1
  let pc1 : ProviderConfig := { pc with DefaultConfig := (getConfig pc.DefaultConfig d).2 }
  let configHash := config.Hash
  match cacheLoad pc1.clientCache configHash with
  | some cached => (.ok cached, pc1)
  | none =>
    match buildClient env config with
    | .error e => (.err e, pc1)
    | .ok dockerClient =>
      let pc2 : ProviderConfig :=
        { pc1 with clientCache := cacheLoadOrStore pc1.clientCache configHash dockerClient }
      match dockerClient with
      | none => (.panic, pc2)
      | some cl =>
        match env.ping cl with
        | some e => (.err (.pingWrap e), pc2)
        | none => (.ok (some cl), pc2)

/-- Models `Config.NewClient` (the non-caching constructor kept alongside
`MakeClient`).  Unlike `MakeClient`'s ssh branch, it resolves the helper
with `connhelper.GetConnectionHelperWithSSHOpts(c.Host, c.SSHOpts)` on
every host, and when no helper is found it falls through to the direct
client. -/
def NewClient (env : Env) (c : Config) : Except GoErr ClientOpts :=
  if c.Cert ≠ "" ∨ c.Key ≠ "" then
    if c.Cert = "" ∨ c.Key = "" then
      .error (.msg "cert_material, and key_material must be specified")
    else if c.CertPath ≠ "" then
      .error (.msg "cert_path must not be specified")
    else
      match buildHTTPClientFromBytes env (some (utf8Bytes c.Ca))
          (some (utf8Bytes c.Cert)) (some (utf8Bytes c.Key)) with
      | .error e => .error e
      | .ok httpClient =>
        match env.newClientWithOpts (.withHTTPClient httpClient c.Host) with
        | some e => .error (.ext e)
        | none => .ok (.withHTTPClient httpClient c.Host)
  else if c.CertPath ≠ "" then
    let opts := ClientOpts.withTLSClientConfig c.Host
      (filepathJoin c.CertPath "ca.pem")
      (filepathJoin c.CertPath "cert.pem")
      (filepathJoin c.CertPath "key.pem")
    match env.newClientWithOpts opts with
    | some e => .error (.ext e)
    | none => .ok opts
  else
    match env.getConnectionHelperWithSSHOpts c.Host c.SSHOpts with
    | (_, some e) => .error (.ext e)
    | (some helper, none) =>
      match env.newClientWithOpts (.withDialContext helper.Host) with
      | some e => .error (.ext e)
      | none => .ok (.withDialContext helper.Host)
    | (none, none) =>
      match env.newClientWithOpts (.withHostOnly c.Host) with
      | some e => .error (.ext e)
      | none => .ok (.withHostOnly c.Host)

/-- Models `normalizeRegistryAddress`. -/
def normalizeRegistryAddress (address : String) : String :=
  if goStartsWith address "http://" then address
  else if ¬ goStartsWith address "https://" ∧ ¬ goStartsWith address "http://" then
    "https://" ++ address
  else address

/-! ## Helper lemmas -/

/-- Copying into an empty destination copies nothing. -/
theorem goCopy_nil {α : Type} (l : List α) : goCopy ([] : List α) l = [] := by
  cases l <;> rfl

/-- Since `copy` into the nil local slice copies nothing, the bytes fed to
the FNV hash are exactly the five string fields joined with `|`, followed
by a final `|` and an empty SSH-options segment. -/
theorem hash_formula (c : Config) :
    Config.Hash c =
      fnv64 (utf8Bytes (goJoin [c.Host, c.Ca, c.Cert, c.Key, c.CertPath, ""] "|")) := by
  simp only [Config.Hash, goCopy_nil, sortStrings, goJoin]

/-- Copying the same source a second time over an already-copied
destination changes nothing. -/
theorem goCopy_idem {α : Type} (a b : List α) : goCopy (goCopy a b) b = goCopy a b := by
  induction a generalizing b with
  | nil => cases b <;> rfl
  | cons d ds ih =>
    cases b with
    | nil => rfl
    | cons s ss => simpa [goCopy] using ih ss

/-- The provider default after `getConfig` differs from the one before
only in its `SSHOpts` field, which ends up equal to the resolved config's. -/
theorem getConfig_snd (default : Config) (d : Option Config) :
    (getConfig default d).2 = { default with SSHOpts := (getConfig default d).1.SSHOpts } := by
  cases d <;> rfl

/-- The non-`SSHOpts` fields of the resolved config do not depend on the
default's `SSHOpts`. -/
theorem getConfig_fields_sshopts_irrel (default : Config) (d : Option Config) (o : List String) :
    ((getConfig { default with SSHOpts := o } d).1).Host = ((getConfig default d).1).Host ∧
    ((getConfig { default with SSHOpts := o } d).1).Ca = ((getConfig default d).1).Ca ∧
    ((getConfig { default with SSHOpts := o } d).1).Cert = ((getConfig default d).1).Cert ∧
    ((getConfig { default with SSHOpts := o } d).1).Key = ((getConfig default d).1).Key ∧
    ((getConfig { default with SSHOpts := o } d).1).CertPath = ((getConfig default d).1).CertPath := by
  cases d <;> exact ⟨rfl, rfl, rfl, rfl, rfl⟩

/-- Resolving a second time against the (possibly mutated) default yields
the same `SSHOpts`. -/
theorem getConfig_opts_idem (default : Config) (d : Option Config) :
    (getConfig (getConfig default d).2 d).1.SSHOpts = (getConfig default d).1.SSHOpts := by
  cases d with
  | none => rfl
  | some rc =>
    by_cases h : rc.SSHOpts.length ≠ 0 <;>
      simp [getConfig, h, goCopy_idem]

/-- Resolving a second time leaves the (already mutated) default fixed. -/
theorem getConfig_snd_idem (default : Config) (d : Option Config) :
    (getConfig (getConfig default d).2 d).2 = (getConfig default d).2 := by
  rw [getConfig_snd (getConfig default d).2 d, getConfig_opts_idem, getConfig_snd]

/-- Two configs agreeing on the five string fields hash identically (their
`SSHOpts` are irrelevant, see `hash_formula`). -/
theorem hash_congr (c₁ c₂ : Config) (hh : c₁.Host = c₂.Host) (hca : c₁.Ca = c₂.Ca)
    (hce : c₁.Cert = c₂.Cert) (hk : c₁.Key = c₂.Key) (hcp : c₁.CertPath = c₂.CertPath) :
    Config.Hash c₁ = Config.Hash c₂ := by
  rw [hash_formula, hash_formula, hh, hca, hce, hk, hcp]

/-- The fingerprint of the resolved config is stable across re-resolution
against the mutated default. -/
theorem getConfig_hash_idem (default : Config) (d : Option Config) :
    Config.Hash (getConfig (getConfig default d).2 d).1 = Config.Hash (getConfig default d).1 := by
  rw [getConfig_snd default d]
  obtain ⟨h1, h2, h3, h4, h5⟩ :=
    getConfig_fields_sshopts_irrel default d (getConfig default d).1.SSHOpts
  exact hash_congr _ _ h1 h2 h3 h4 h5

/-- The TLS loader `buildHTTPClientFromBytes` never produces a ping-wrapped error. -/
theorem buildHTTPClientFromBytes_no_pingWrap (env : Env)
    (ca cert key : Option (List Nat)) (e : Nat) :
    buildHTTPClientFromBytes env ca cert key ≠ .error (.pingWrap e) := by
  have hca : ∀ certs : List (List Nat × List Nat),
      (if (ca.getD []).length = 0 then
        (Except.ok { TLSClientConfig :=
          { Certificates := certs, InsecureSkipVerify := true, RootCAs := none } } :
            Except GoErr HTTPClient)
      else if env.appendCertsFromPEM (ca.getD []) then
        Except.ok { TLSClientConfig :=
          { Certificates := certs, InsecureSkipVerify := false, RootCAs := some (ca.getD []) } }
      else Except.error (GoErr.msg "could not add RootCA pem")) ≠
        Except.error (GoErr.pingWrap e) := by
    intro certs
    by_cases h0 : (ca.getD []).length = 0 <;>
      by_cases h1 : env.appendCertsFromPEM (ca.getD []) = true <;>
      simp [h0, h1]
  unfold buildHTTPClientFromBytes
  rcases cert with _ | c
  · exact hca []
  · rcases key with _ | k
    · exact hca []
    · rcases hpair : env.x509KeyPair c k with _ | pe
      · simpa [hpair] using hca [(c, k)]
      · simp [hpair]

/-- The branch chain never produces a ping-wrapped error: every error it
returns is a constant message or an external-library error. -/
theorem buildClient_no_pingWrap (env : Env) (config : Config) (e : Nat) :
    buildClient env config ≠ .error (.pingWrap e) := by
  intro h
  unfold buildClient at h
  by_cases h1 : config.Cert ≠ "" ∨ config.Key ≠ ""
  · rw [if_pos h1] at h
    by_cases h2 : config.Cert = "" ∨ config.Key = ""
    · rw [if_pos h2] at h; simp at h
    · rw [if_neg h2] at h
      by_cases h3 : config.CertPath ≠ ""
      · rw [if_pos h3] at h; simp at h
      · rw [if_neg h3] at h
        rcases hB : buildHTTPClientFromBytes env (some (utf8Bytes config.Ca))
            (some (utf8Bytes config.Cert)) (some (utf8Bytes config.Key)) with eB | hc
        · simp only [hB] at h
          have heB : eB = GoErr.pingWrap e := by injection h
          exact buildHTTPClientFromBytes_no_pingWrap env _ _ _ e (heB ▸ hB)
        · simp only [hB] at h; simp at h
  · rw [if_neg h1] at h
    by_cases h4 : config.CertPath ≠ ""
    · rw [if_pos h4] at h
      rcases hN : env.newClientWithOpts (ClientOpts.withTLSClientConfig config.Host
          (filepathJoin config.CertPath "ca.pem") (filepathJoin config.CertPath "cert.pem")
          (filepathJoin config.CertPath "key.pem")) with _ | eN <;>
        simp [hN] at h
    · rw [if_neg h4] at h
      by_cases h5 : goStartsWith config.Host "ssh://" = true
      · rw [if_pos h5] at h
        rcases hH : env.getConnectionHelper config.Host with ⟨helper, herr⟩
        rcases herr with _ | eH
        · rcases helper with _ | hl <;> simp [hH] at h
        · simp [hH] at h
      · rw [if_neg h5] at h
        rcases hN : env.newClientWithOpts (ClientOpts.withHostOnly config.Host) with _ | eN <;>
          simp [hN] at h

/-- When the fingerprint of the resolved configuration is already cached,
`MakeClient` returns the stored (possibly nil) handle with no error and
only the `getConfig` mutation of the default as a state change. -/
theorem makeClient_hit_eq (env : Env) (pc : ProviderConfig) (d : Option Config)
    (cached : Option ClientOpts)
    (hhit : cacheLoad pc.clientCache (Config.Hash (getConfig pc.DefaultConfig d).1) = some cached) :
    MakeClient env pc d =
      (.ok cached, { pc with DefaultConfig := (getConfig pc.DefaultConfig d).2 }) := by
  simp only [MakeClient, hhit]

/-! ## Claim theorems -/

/-- C1: the spec says `Hash` digests host, CA, cert, key, certPath and the
pipe-joined sorted SSH options.  The code instead digests the five string
fields followed by an EMPTY options segment, for every configuration: the
`copy` into the nil local slice drops the SSH options before sorting, so
they are never part of the hashed bytes. -/
theorem hash_bytes_omit_sshopts (c : Config) :
    Config.Hash c =
      fnv64 (utf8Bytes (goJoin [c.Host, c.Ca, c.Cert, c.Key, c.CertPath, ""] "|")) :=
  hash_formula c

/-- C10: two configurations agreeing on `Host`, `Ca`, `Cert`, `Key` and
`CertPath` always hash to the same 64-bit fingerprint, whatever their
`SSHOpts` lists are — the SSH options never influence the cache key. -/
theorem hash_ignores_sshopts (c₁ c₂ : Config) (hh : c₁.Host = c₂.Host)
    (hca : c₁.Ca = c₂.Ca) (hce : c₁.Cert = c₂.Cert) (hk : c₁.Key = c₂.Key)
    (hcp : c₁.CertPath = c₂.CertPath) :
    Config.Hash c₁ = Config.Hash c₂ :=
  hash_congr c₁ c₂ hh hca hce hk hcp

def cfgC10a : Config :=
  { Host := "tcp://d:2375", SSHOpts := ["-o", "StrictHostKeyChecking=no"],
    Ca := "CA", Cert := "", Key := "", CertPath := "" }

def cfgC10b : Config :=
  { Host := "tcp://d:2375", SSHOpts := [], Ca := "CA", Cert := "", Key := "", CertPath := "" }

theorem hash_ignores_sshopts_witness : Config.Hash cfgC10a = Config.Hash cfgC10b :=
  hash_ignores_sshopts cfgC10a cfgC10b rfl rfl rfl rfl rfl

/-- C3: the spec says resolution never mutates either source
configuration.  The code violates this: resolving a default whose
`SSHOpts` is `["a"]` against an override carrying `["b"]` overwrites the
default's backing array in place, so the provider default afterwards
holds `["b"]`. -/
theorem getConfig_mutates_default_sshopts :
    ({ Host := "tcp://a", SSHOpts := ["a"], Ca := "", Cert := "", Key := "",
       CertPath := "" } : Config).SSHOpts = ["a"] ∧
    (getConfig
      { Host := "tcp://a", SSHOpts := ["a"], Ca := "", Cert := "", Key := "", CertPath := "" }
      (some { Host := "", SSHOpts := ["b"], Ca := "", Cert := "", Key := "",
              CertPath := "" })).2.SSHOpts = ["b"] :=
  ⟨rfl, rfl⟩

/-- C4: the spec says a non-empty override `SSHOpts` list replaces the
default's list wholesale.  The code instead `copy`s element-wise into the
default-sized array: default `["a", "b"]` with override `["c"]` resolves
to `["c", "b"]`, not `["c"]`. -/
theorem getConfig_sshopts_not_wholesale :
    (getConfig
      { Host := "tcp://a", SSHOpts := ["a", "b"], Ca := "", Cert := "", Key := "",
        CertPath := "" }
      (some { Host := "", SSHOpts := ["c"], Ca := "", Cert := "", Key := "",
              CertPath := "" })).1.SSHOpts = ["c", "b"] :=
  rfl

/-- C5: the spec says the SSH branch of `MakeClient` resolves the
connection helper from the host AND the SSH options.  The code calls
`connhelper.GetConnectionHelper(config.Host)`, a function of the host
alone, so the whole branch chain — helper resolution included — is
invariant under any change of the resolved configuration's `SSHOpts`. -/
theorem buildClient_ignores_sshopts (env : Env) (c : Config) (o₁ o₂ : List String) :
    buildClient env { c with SSHOpts := o₁ } = buildClient env { c with SSHOpts := o₂ } := by
  cases c
  rfl

/-- C8: a cache hit on the resolved configuration's fingerprint returns
the stored handle with no error and no state change beyond the
`getConfig` default mutation, for EVERY oracle environment — so no
client is constructed, no validity check runs and no ping happens on the
hit path. -/
theorem makeClient_cache_hit_returns_cached (env : Env) (pc : ProviderConfig)
    (d : Option Config) (cached : Option ClientOpts)
    (hhit : cacheLoad pc.clientCache (Config.Hash (getConfig pc.DefaultConfig d).1) = some cached) :
    MakeClient env pc d =
      (.ok cached, { pc with DefaultConfig := (getConfig pc.DefaultConfig d).2 }) :=
  makeClient_hit_eq env pc d cached hhit

def cfgC8 : Config :=
  { Host := "tcp://d:2375", SSHOpts := [], Ca := "", Cert := "x", Key := "", CertPath := "y" }

def envC8 : Env :=
  { x509KeyPair := fun _ _ => some 3, appendCertsFromPEM := fun _ => false,
    getConnectionHelper := fun _ => (none, some 4),
    getConnectionHelperWithSSHOpts := fun _ _ => (none, some 4),
    newClientWithOpts := fun _ => some 5, ping := fun _ => some 6 }

theorem makeClient_cache_hit_returns_cached_witness :
    MakeClient envC8
      { DefaultConfig := cfgC8,
        clientCache := [(Config.Hash cfgC8, some (ClientOpts.withHostOnly "tcp://d:2375"))] }
      none =
    (.ok (some (ClientOpts.withHostOnly "tcp://d:2375")),
     { DefaultConfig := cfgC8,
       clientCache := [(Config.Hash cfgC8, some (ClientOpts.withHostOnly "tcp://d:2375"))] }) :=
  makeClient_cache_hit_returns_cached envC8
    { DefaultConfig := cfgC8,
      clientCache := [(Config.Hash cfgC8, some (ClientOpts.withHostOnly "tcp://d:2375"))] }
    none (some (ClientOpts.withHostOnly "tcp://d:2375")) (by rfl)

/-- C9: with an empty CA PEM and a cert/key pair that parses,
`buildHTTPClientFromBytes` succeeds and the returned client's TLS
configuration has `InsecureSkipVerify` set and no root CA pool: any
server certificate is accepted. -/
theorem buildHTTPClientFromBytes_empty_ca_insecure (env : Env) (ca : Option (List Nat))
    (cert key : List Nat) (hca : (ca.getD []).length = 0)
    (hpair : env.x509KeyPair cert key = none) :
    buildHTTPClientFromBytes env ca (some cert) (some key) =
      .ok { TLSClientConfig :=
        { Certificates := [(cert, key)], InsecureSkipVerify := true, RootCAs := none } } := by
  unfold buildHTTPClientFromBytes
  simp [hpair, hca]

def envC9 : Env :=
  { x509KeyPair := fun _ _ => none, appendCertsFromPEM := fun _ => false,
    getConnectionHelper := fun _ => (none, none),
    getConnectionHelperWithSSHOpts := fun _ _ => (none, none),
    newClientWithOpts := fun _ => none, ping := fun _ => none }

theorem buildHTTPClientFromBytes_empty_ca_insecure_witness :
    buildHTTPClientFromBytes envC9 none (some [1, 2]) (some [3, 4]) =
      .ok { TLSClientConfig :=
        { Certificates := [([1, 2], [3, 4])], InsecureSkipVerify := true, RootCAs := none } } :=
  buildHTTPClientFromBytes_empty_ca_insecure envC9 none [1, 2] [3, 4] rfl rfl

def cfgC2 : Config :=
  { Host := "ssh://user@h", SSHOpts := [], Ca := "", Cert := "", Key := "", CertPath := "" }

def envC2 : Env :=
  { x509KeyPair := fun _ _ => none, appendCertsFromPEM := fun _ => true,
    getConnectionHelper := fun _ => (none, none),
    getConnectionHelperWithSSHOpts := fun _ _ => (none, none),
    newClientWithOpts := fun _ => none, ping := fun _ => none }

/-- C2: the spec says that when SSH helper resolution yields no helper and
no error, `MakeClient` falls through to the direct branch and returns a
client bound to the literal host.  The code has no such fall-through: for
an `ssh://` host with no cert material and a `(nil, nil)` helper
resolution, `dockerClient` stays nil, a NIL entry is stored in the cache
under the configuration's fingerprint, and the subsequent
`dockerClient.Ping(ctx)` dereferences the nil pointer. -/
theorem makeClient_ssh_no_helper_caches_nil_and_panics :
    MakeClient envC2 { DefaultConfig := cfgC2, clientCache := [] } none =
      (.panic,
       { DefaultConfig := cfgC2, clientCache := [(Config.Hash cfgC2, none)] }) := by
  rfl

/-- C6: on a cache miss, a resolved configuration with exactly one of
cert/key material set makes `MakeClient` return the pairing error and no
client; one with both set together with a cert path returns the
exclusivity error and no client — in every oracle environment, so
neither conflict is ever resolved by silently picking a branch. -/
theorem makeClient_cert_key_conflict_errors (env : Env) (pc : ProviderConfig)
    (d : Option Config)
    (hmiss : cacheLoad pc.clientCache (Config.Hash (getConfig pc.DefaultConfig d).1) = none)
    (hck : (getConfig pc.DefaultConfig d).1.Cert ≠ "" ∨ (getConfig pc.DefaultConfig d).1.Key ≠ "") :
    (((getConfig pc.DefaultConfig d).1.Cert = "" ∨ (getConfig pc.DefaultConfig d).1.Key = "") →
      (MakeClient env pc d).1 = .err (.msg "cert_material, and key_material must be specified")) ∧
    ((getConfig pc.DefaultConfig d).1.Cert ≠ "" → (getConfig pc.DefaultConfig d).1.Key ≠ "" →
      (getConfig pc.DefaultConfig d).1.CertPath ≠ "" →
      (MakeClient env pc d).1 = .err (.msg "cert_path must not be specified")) := by
  constructor
  · intro hone
    have hbc : buildClient env (getConfig pc.DefaultConfig d).1 =
        .error (.msg "cert_material, and key_material must be specified") := by
      unfold buildClient
      rw [if_pos hck, if_pos hone]
    simp only [MakeClient, hmiss, hbc]
  · intro hcert hkey hpath
    have hbc : buildClient env (getConfig pc.DefaultConfig d).1 =
        .error (.msg "cert_path must not be specified") := by
      unfold buildClient
      rw [if_pos hck, if_neg (not_or.mpr ⟨hcert, hkey⟩), if_pos hpath]
    simp only [MakeClient, hmiss, hbc]

def cfgC6 : Config :=
  { Host := "tcp://a", SSHOpts := [], Ca := "", Cert := "CERT", Key := "", CertPath := "" }

def envC6 : Env :=
  { x509KeyPair := fun _ _ => none, appendCertsFromPEM := fun _ => true,
    getConnectionHelper := fun _ => (none, none),
    getConnectionHelperWithSSHOpts := fun _ _ => (none, none),
    newClientWithOpts := fun _ => none, ping := fun _ => none }

theorem makeClient_cert_key_conflict_errors_witness :
    (MakeClient envC6 { DefaultConfig := cfgC6, clientCache := [] } none).1 =
      .err (.msg "cert_material, and key_material must be specified") :=
  (makeClient_cert_key_conflict_errors envC6 { DefaultConfig := cfgC6, clientCache := [] }
    none rfl (Or.inl (by decide))).1 (Or.inr rfl)

/-- C7: whenever `MakeClient` surfaces a ping failure (the only source of
the wrapped "error pinging Docker server" message), the handle it built
is still cached under the resolved configuration's fingerprint, and a
second call against the returned state is a pure cache hit returning that
stored handle with no error and no state change. -/
theorem makeClient_ping_failure_keeps_cache_entry (env : Env) (pc : ProviderConfig)
    (d : Option Config) (e : Nat) (pc' : ProviderConfig)
    (hres : MakeClient env pc d = (.err (.pingWrap e), pc')) :
    ∃ cl : ClientOpts,
      cacheLoad pc'.clientCache (Config.Hash (getConfig pc'.DefaultConfig d).1) =
        some (some cl) ∧
      MakeClient env pc' d = (.ok (some cl), pc') := by
  simp only [MakeClient] at hres
  rcases hload : cacheLoad pc.clientCache (Config.Hash (getConfig pc.DefaultConfig d).1)
      with _ | cached
  · simp only [hload] at hres
    rcases hbc : buildClient env (getConfig pc.DefaultConfig d).1 with eB | dockerClient
    · simp only [hbc] at hres
      have h1 : Outcome.err eB = Outcome.err (.pingWrap e) := congrArg Prod.fst hres
      have h2 : eB = GoErr.pingWrap e := by injection h1
      exact absurd (h2 ▸ hbc) (buildClient_no_pingWrap env _ e)
    · rcases dockerClient with _ | cl
      · simp only [hbc] at hres
        exact absurd (congrArg Prod.fst hres) (by simp)
      · simp only [hbc] at hres
        rcases hping : env.ping cl with _ | pe
        · simp only [hping] at hres
          exact absurd (congrArg Prod.fst hres) (by simp)
        · simp only [hping] at hres
          have hpc' : pc' =
              { DefaultConfig := (getConfig pc.DefaultConfig d).2,
                clientCache := cacheLoadOrStore pc.clientCache
                  (Config.Hash (getConfig pc.DefaultConfig d).1) (some cl) } :=
            (congrArg Prod.snd hres).symm
          have hstore : cacheLoadOrStore pc.clientCache
              (Config.Hash (getConfig pc.DefaultConfig d).1) (some cl) =
              (Config.Hash (getConfig pc.DefaultConfig d).1, some cl) :: pc.clientCache := by
            simp [cacheLoadOrStore, hload]
          have hhash : Config.Hash (getConfig pc'.DefaultConfig d).1 =
              Config.Hash (getConfig pc.DefaultConfig d).1 := by
            rw [hpc']
            exact getConfig_hash_idem pc.DefaultConfig d
          have hhit : cacheLoad pc'.clientCache (Config.Hash (getConfig pc'.DefaultConfig d).1)
              = some (some cl) := by
            rw [hhash, hpc']
            simp [hstore, cacheLoad]
          have hsnd : (getConfig pc'.DefaultConfig d).2 = pc'.DefaultConfig := by
            rw [hpc']
            exact getConfig_snd_idem pc.DefaultConfig d
          refine ⟨cl, hhit, ?_⟩
          have := makeClient_hit_eq env pc' d (some cl) hhit
          rw [this, hsnd]
  · simp only [hload] at hres
    exact absurd (congrArg Prod.fst hres) (by simp)

def cfgC7 : Config :=
  { Host := "tcp://d:2375", SSHOpts := [], Ca := "", Cert := "", Key := "", CertPath := "" }

def envC7 : Env :=
  { x509KeyPair := fun _ _ => none, appendCertsFromPEM := fun _ => true,
    getConnectionHelper := fun _ => (none, none),
    getConnectionHelperWithSSHOpts := fun _ _ => (none, none),
    newClientWithOpts := fun _ => none, ping := fun _ => some 7 }

def pcC7 : ProviderConfig := { DefaultConfig := cfgC7, clientCache := [] }

theorem makeClient_ping_failure_keeps_cache_entry_witness :
    ∃ cl : ClientOpts,
      cacheLoad (MakeClient envC7 pcC7 none).2.clientCache
        (Config.Hash (getConfig (MakeClient envC7 pcC7 none).2.DefaultConfig none).1) =
        some (some cl) ∧
      MakeClient envC7 (MakeClient envC7 pcC7 none).2 none =
        (.ok (some cl), (MakeClient envC7 pcC7 none).2) :=
  makeClient_ping_failure_keeps_cache_entry envC7 pcC7 none 7
    (MakeClient envC7 pcC7 none).2 (by rfl)

end DockerProvider
